import Mathlib

/-!
Verification model of the job orchestration and naming engine of
`src/yt_downloader_22_fixed_origlang.py` (a Tkinter + yt-dlp downloader GUI).

Strings manipulated character-by-character by the Python code (titles, file
names, selector strings) are modelled as `List Char` (`Str` below); strings
only compared or stored verbatim (job statuses, log messages, GUI choices)
are modelled as Lean `String`.

Status strings used by the code (they play the role of the spec's job
states): "Ожидает" = Queued, "В процессе" = Running, "Готово" = Succeeded,
"Готово (mkv)" = SucceededFallback, "Отменено" = Canceled,
"Ошибка" = Failed.
-/

/-- Character strings manipulated positionally by the Python code. -/
abbrev Str := List Char

/-- Boolean test: `pat` is a leading segment of `s`. -/
def isPrefixL : Str → Str → Bool
  | [], _ => true
  | _ :: _, [] => false
  | p :: ps, c :: cs => p = c && isPrefixL ps cs

/-- Boolean test: `pat` occurs as a contiguous substring of `s`
(Python `pat in s`). -/
def isInfixL (pat : Str) : Str → Bool
  | [] => isPrefixL pat []
  | c :: cs => isPrefixL pat (c :: cs) || isInfixL pat cs

/-- Substring test on `String`s via their character lists. -/
def containsSub (s pat : String) : Bool := isInfixL pat.toList s.toList

/- ------------------------------------------------------------------
Codec / container model (`_norm_vcodec_choice`, `_norm_acodec_choice`,
`_norm_container_choice`, lines 887-906).  The GUI comboboxes offer exactly
the choices that normalize onto these enumerations. -/

/-- Normalized video codec preference (`auto`/`av1`/`vp9`/`h264`). -/
inductive VCodec | auto | av1 | vp9 | h264
deriving DecidableEq

/-- Normalized audio codec preference (`auto`/`opus`/`aac`/`vorbis`). -/
inductive ACodec | auto | opus | aac | vorbis
deriving DecidableEq

/-- Normalized container preference (`auto`/`mp4`/`mkv`/`webm`). -/
inductive Container | auto | mp4 | mkv | webm
deriving DecidableEq

/-- `_norm_vcodec_choice` (lines 887-894): GUI string to normalized codec. -/
def normVcodecChoice (s : String) : VCodec :=
  if s.startsWith "AV1" then .av1
  else if s.startsWith "VP9" then .vp9
  else if s.startsWith "H.264" then .h264
  else .auto

/-- `_norm_acodec_choice` (lines 896-903). -/
def normAcodecChoice (s : String) : ACodec :=
  if s.startsWith "Opus" then .opus
  else if s.startsWith "AAC" then .aac
  else if s.startsWith "Vorbis" then .vorbis
  else .auto

/-- Warning text at line 920. -/
def mp4VideoWarn : String := "MP4: видео кодек скорректирован на H.264."

/-- Warning text at line 924. -/
def mp4AudioWarn : String := "MP4: аудио кодек скорректирован на AAC."

/-- Warning text at line 929. -/
def webmVideoWarn : String := "WEBM: видео кодек скорректирован на VP9."

/-- Warning text at line 932. -/
def webmAudioWarn : String := "WEBM: аудио кодек скорректирован на Opus."

/-- Python `warn = (warn + " " if warn else "") + msg` (lines 924, 932). -/
def appendWarn (w : Option String) (msg : String) : Option String :=
  match w with
  | none => some msg
  | some s => some (s ++ " " ++ msg)

/-- Result of `_resolve_codecs_for_container`: effective codecs plus the
optional correction warning. -/
structure ResolvedCodecs where
  effV : VCodec
  effA : ACodec
  warn : Option String
deriving DecidableEq

/-- `_resolve_codecs_for_container` (lines 908-935).  mp4 forces H.264+AAC
(warning only when the user explicitly asked for av1/vp9 resp. opus/vorbis);
webm forces h264→vp9 and aac→opus; mkv/auto change nothing. -/
def resolveCodecsForContainer (vcodec : VCodec) (acodec : ACodec)
    (container : Container) : ResolvedCodecs :=
  match container with
  | .mp4 =>
      let warn0 : Option String := none
      let effV := if vcodec = .av1 ∨ vcodec = .vp9 ∨ vcodec = .auto then .h264 else vcodec
      let warn1 := if vcodec = .av1 ∨ vcodec = .vp9 then some mp4VideoWarn else warn0
      let effA := if acodec = .opus ∨ acodec = .vorbis ∨ acodec = .auto then .aac else acodec
      let warn2 := if acodec = .opus ∨ acodec = .vorbis then appendWarn warn1 mp4AudioWarn else warn1
      ⟨effV, effA, warn2⟩
  | .webm =>
      let warn0 : Option String := none
      let effV := if vcodec = .h264 then .vp9 else vcodec
      let warn1 := if vcodec = .h264 then some webmVideoWarn else warn0
      let effA := if acodec = .aac then .opus else acodec
      let warn2 := if acodec = .aac then appendWarn warn1 webmAudioWarn else warn1
      ⟨effV, effA, warn2⟩
  | _ => ⟨vcodec, acodec, none⟩

/-- `_format_selector` (lines 937-959): builds the yt-dlp selector string
`<vfilter>+<afilter>/best[height<=?H]`. -/
def formatSelector (height : Nat) (vcodec : VCodec) (acodec : ACodec)
    (alang : String) : String :=
  let vfilter := "bestvideo[height<=?" ++ toString height ++ "]"
  let vfilter := vfilter ++
    (match vcodec with
     | .av1 => "[vcodec^=av01]"
     | .vp9 => "[vcodec=vp9]"
     | .h264 => "[vcodec^=avc1]"
     | .auto => "")
  let afilter := "bestaudio"
  let afilter := afilter ++
    (match acodec with
     | .aac => "[acodec^=mp4a]"
     | .opus => "[acodec=opus]"
     | .vorbis => "[acodec=vorbis]"
     | .auto => "")
  let afilter := afilter ++
    (if alang = "ru" then "[language^=ru]"
     else if alang = "en" then "[language^=en]"
     else "")
  vfilter ++ "+" ++ afilter ++ "/best[height<=?" ++ toString height ++ "]"

/-- The fixed quality ladder of `_desired_height` (lines 875-885) and the
edit dialog (lines 2072-2075). -/
def heightLadder : List Nat := [480, 720, 1080, 1440, 2160, 4320]

/-- The selector the download run uses for a video job: effective codecs are
computed by `_resolve_codecs_for_container` and passed to `_format_selector`
(lines 1407, 1412). -/
def runSelector (height : Nat) (vcodec : VCodec) (acodec : ACodec)
    (container : Container) (alang : String) : String :=
  let r := resolveCodecsForContainer vcodec acodec container
  formatSelector height r.effV r.effA alang

/- ------------------------------------------------------------------
OutputNamer: `_ellipsize` (lines 255-266) and the length-bounded rename
of `_auto_rename_result` (lines 1690-1708). -/

/-- `SAFE_MAX_PATH = 240` (line 44): safe full-path length. -/
def SAFE_MAX : Nat := 240

/-- `MIN_BASE_LEN = 20` (line 45): minimum visible title length. -/
def MIN_BASE_LEN : Nat := 20

/-- `_ellipsize` (lines 255-266): middle ellipsis keeping the start and the
end of the string.  Python computes `left = int(keep * 0.6)` with float
multiplication; it is modelled as `keep * 6 / 10`.  The split point may
differ from the float value by one position at some lengths, but always
satisfies `0 ≤ left < keep`, which is all the length facts below use. -/
def ellipsize (s : Str) (maxlen : Nat) : Str :=
  if maxlen ≤ 1 ∨ s.length ≤ maxlen then s
  else
    let keep := maxlen - 1
    let left := keep * 6 / 10
    let right := keep - left
    if 0 < right then s.take left ++ '…' :: s.drop (s.length - right)
    else s.take maxlen

/-- Python `s.replace("__", "_")`: left-to-right non-overlapping replacement
of double underscores (lines 1692, 1698). -/
def collapseUU : Str → Str
  | [] => []
  | [c] => [c]
  | c1 :: c2 :: rest =>
    if c1 = '_' ∧ c2 = '_' then '_' :: collapseUU rest
    else c1 :: collapseUU (c2 :: rest)

/-- Python `s.strip(chars)`: drop the given characters from both ends. -/
def stripEnds (bad : Char → Bool) (s : Str) : Str :=
  ((s.dropWhile bad).reverse.dropWhile bad).reverse

/-- `s.strip("_")` as used at lines 1692, 1698, 1706. -/
def stripU (s : Str) : Str := stripEnds (fun c => c = '_') s

/-- `os.path.join(folder, name)`: folder, one separator character, name. -/
def pathJoin (folder name : Str) : Str := folder ++ '/' :: name

/-- `h_part = f"{height}" if height else ""` (line 1690): empty for a
missing or zero height (Python truthiness). -/
def heightPart (height : Option Nat) : Str :=
  match height with
  | none => []
  | some h => if h = 0 then [] else (toString h).toList

/-- `new_base = f"{v}_{a}_{h}_{base}".replace("__", "_").strip("_")`
(line 1692). -/
def composeNewBase (v a hPart base : Str) : Str :=
  stripU (collapseUU (v ++ '_' :: a ++ '_' :: hPart ++ '_' :: base))

/-- The candidate path built at lines 1690-1694 before the length check. -/
def renameCandidate (folder v a : Str) (height : Option Nat) (ext base : Str) :
    Str :=
  pathJoin folder (composeNewBase v a (heightPart height) base ++ '.' :: ext)

/-- `_auto_rename_result` steps 4 of the doc comment: the final file name
after the path-length shrink (lines 1690-1708).  If the candidate exceeds
`SAFE_MAX`, only the title is ellipsized down to
`max MIN_BASE_LEN (len base - extra)` characters; the tag/height prefix and
the extension are rebuilt unchanged. -/
def autoRenameName (folder v a : Str) (height : Option Nat) (ext base : Str) :
    Str :=
  let hPart := heightPart height
  let newBase := composeNewBase v a hPart base
  let newName := newBase ++ '.' :: ext
  let candidate := pathJoin folder newName
  if SAFE_MAX < candidate.length then
    let pfx0 := stripU (collapseUU (v ++ '_' :: a ++ '_' :: hPart ++ ['_']))
    let pfx := if pfx0 ≠ [] then pfx0 ++ ['_'] else pfx0
    let extra := candidate.length - SAFE_MAX
    let allowed := max MIN_BASE_LEN (base.length - extra)
    let base2 := ellipsize base allowed
    stripU (pfx ++ base2) ++ '.' :: ext
  else newName

/- ------------------------------------------------------------------
Progress reporting: `_append_raw_throttled` (lines 819-826) and the hook of
`_progress_hook_factory` (lines 1723-1759).  Timestamps and percentages are
Python floats compared against 0.5; they are modelled as rationals (0.5 is
exactly representable, so the threshold comparisons agree). -/

/-- Throttle state `_last_raw_line_ts` / `_last_raw_percent`; reset to
`(0, -1)` at the start of each download (lines 1302-1303). -/
structure ThrottleState where
  lastTs : Rat
  lastPercent : Rat
deriving DecidableEq

/-- The reset state of lines 1302-1303. -/
def throttleReset : ThrottleState := ⟨0, -1⟩

/-- `_append_raw_throttled` (lines 819-826): the line is dropped only when
BOTH less than 0.5 s passed since the last emission AND less than 0.5
percentage points of progress accumulated; otherwise it is emitted and the
state is updated.  Returns (emitted, new state). -/
def appendRawThrottled (st : ThrottleState) (now percent : Rat) :
    Bool × ThrottleState :=
  if now - st.lastTs < 1/2 ∧ percent - st.lastPercent < 1/2 then (false, st)
  else (true, ⟨now, percent⟩)

/-- Events delivered to the progress hook (`d["status"]`). -/
inductive HookEvent
  | downloading (now percent : Rat)
  | finished
  | error
deriving DecidableEq

/-- The hook built by `_progress_hook_factory` (lines 1723-1759), restricted
to what it does to the cancellation flag and the detailed ("raw") log.  If
the shared cancellation flag is set the hook raises `KeyboardInterrupt`
before anything else (lines 1725-1726), modelled as `Except.error ()`.
Otherwise: an intermediate `downloading` line goes through the throttle
(line 1750); the `finished` 100%-completion line and the `error` line are
appended unthrottled via `_append_raw` (lines 1755, 1758).  Returns whether
a raw line was emitted plus the new throttle state. -/
def progressHook (cancelSet : Bool) (st : ThrottleState) (ev : HookEvent) :
    Except Unit (Bool × ThrottleState) :=
  if cancelSet then .error ()
  else
    match ev with
    | .downloading now percent => .ok (appendRawThrottled st now percent)
    | .finished => .ok (true, st)
    | .error => .ok (true, st)

/- ------------------------------------------------------------------
`_run_single_download` (lines 1300-1627): two-attempt download with mkv
fallback, and the queue runner `_run_queue` (lines 1151-1177).

External engine calls are modelled by an environment (`JobEnv`) recording
what each yt-dlp invocation and the rename step would do; the control flow
around them is translated from the code. -/

/-- Outcome of one `ydl.extract_info(url, download=True)` call.
`intr` is `KeyboardInterrupt` — raised by the progress hook when the shared
cancellation flag is set (lines 1725-1726); `exc` is any other exception. -/
inductive DlOutcome
  | ok (outputPath : Str)
  | intr
  | exc
deriving DecidableEq

/-- What `_auto_rename_result` does on a successful download.  `skipped`
covers the early returns (missing file, playlist mode, candidate equal to
the source path); `renamed` is a completed `os.replace` to the collision-free
candidate; `failed` is any exception inside the body — caught at lines
1720-1721 and only logged. -/
inductive RenameOutcome
  | skipped
  | renamed (newPath : Str)
  | failed
deriving DecidableEq

/-- Environment of one job execution: what the external calls would do. -/
structure JobEnv where
  /-- Outcome of attempt №1 (lines 1501-1504 / audio branch 1360-1363). -/
  attempt1 : DlOutcome
  /-- Outcome of the mkv fallback attempt №2 (lines 1566-1573). -/
  attempt2 : DlOutcome
  /-- Behaviour of the post-success rename step. -/
  rename : RenameOutcome
  /-- Whether the shared cancellation flag gets set during this job
  (`self.cancel_event.is_set()` at line 1558 and at the queue loop checks). -/
  cancelDuring : Bool
deriving DecidableEq

/-- Result of `_run_single_download` as observed by the caller and the
queue item. -/
structure RunResult where
  /-- The Python return value: "success" / "cancel" / "error". -/
  code : String
  /-- The terminal status written to `queue_item.status`. -/
  status : String
  /-- Number of `extract_info(download=True)` invocations (1 or 2). -/
  attempts : Nat
  /-- Number of mkv fallback invocations (attempt №2 runs). -/
  fallbackAttempts : Nat
  /-- `queue_item.result_path`: set to the engine output path on a
  successful attempt (lines 1507-1510, 1575-1578) and never updated by the
  rename step. -/
  itemResultPath : Option Str
  /-- `self.last_output_path`: the engine output path, replaced by the
  renamed path only when the rename completes (line 1719). -/
  lastOutputPath : Option Str
  /-- Whether "Не удалось переименовать файл" was logged (line 1721). -/
  renameFailLogged : Bool
deriving DecidableEq

/-- The rename step applied to a successful attempt's output path:
final `last_output_path` plus whether the rename failure was logged. -/
def renameStep (p : Str) (r : RenameOutcome) : Str × Bool :=
  match r with
  | .skipped => (p, false)
  | .renamed q => (q, false)
  | .failed => (p, true)

/-- Shared shape of the three success paths (lines 1360-1389 audio,
1501-1548 primary, 1566-1610 fallback). -/
def successResult (p : Str) (r : RenameOutcome) (status : String)
    (attempts fallbackAttempts : Nat) : RunResult :=
  let s := renameStep p r
  { code := "success", status := status, attempts := attempts,
    fallbackAttempts := fallbackAttempts, itemResultPath := some p,
    lastOutputPath := some s.1, renameFailLogged := s.2 }

/-- `_run_single_download` (lines 1300-1627).  `audioOnly` is
`preset.audio_only`.  The audio branch (lines 1313-1404) makes exactly one
attempt: success → "Готово", `KeyboardInterrupt` → "Отменено", other
exception → "Ошибка" — with no fallback.  The video branch runs attempt №1;
on `KeyboardInterrupt`, or on another exception with the cancellation flag
set (line 1558), it stops as "Отменено" with no fallback; on another
exception with the flag clear it runs the mkv fallback attempt №2 exactly
once: success → "Готово (mkv)", `KeyboardInterrupt` → "Отменено",
exception → "Ошибка". -/
def runSingleDownload (audioOnly : Bool) (e : JobEnv) : RunResult :=
  if audioOnly then
    match e.attempt1 with
    | .ok p => successResult p e.rename "Готово" 1 0
    | .intr =>
      { code := "cancel", status := "Отменено", attempts := 1,
        fallbackAttempts := 0, itemResultPath := none,
        lastOutputPath := none, renameFailLogged := false }
    | .exc =>
      { code := "error", status := "Ошибка", attempts := 1,
        fallbackAttempts := 0, itemResultPath := none,
        lastOutputPath := none, renameFailLogged := false }
  else
    match e.attempt1 with
    | .ok p => successResult p e.rename "Готово" 1 0
    | .intr =>
      { code := "cancel", status := "Отменено", attempts := 1,
        fallbackAttempts := 0, itemResultPath := none,
        lastOutputPath := none, renameFailLogged := false }
    | .exc =>
      if e.cancelDuring then
        { code := "cancel", status := "Отменено", attempts := 1,
          fallbackAttempts := 0, itemResultPath := none,
          lastOutputPath := none, renameFailLogged := false }
      else
        match e.attempt2 with
        | .ok p => successResult p e.rename "Готово (mkv)" 2 1
        | .intr =>
          { code := "cancel", status := "Отменено", attempts := 2,
            fallbackAttempts := 1, itemResultPath := none,
            lastOutputPath := none, renameFailLogged := false }
        | .exc =>
          { code := "error", status := "Ошибка", attempts := 2,
            fallbackAttempts := 1, itemResultPath := none,
            lastOutputPath := none, renameFailLogged := false }

/- ------------------------------------------------------------------
Queue data model (`DownloadPreset` lines 181-198, `QueueItem` lines 201-207)
and the queue runner / mutation handlers. -/

/-- `DownloadPreset` (lines 181-198), restricted to the fields the modelled
control flow reads.  Codec/container choices are kept as the raw GUI
strings, as in the dataclass. -/
structure Preset where
  height : Nat
  vcodecChoice : String
  acodecChoice : String
  alangChoice : String
  containerChoice : String
  audioOnly : Bool
deriving DecidableEq

/-- `QueueItem` (lines 201-207).  Python addresses queue rows by object
identity (`id(item)`); the model gives each item a numeric identity. -/
structure QItem where
  idn : Nat
  url : String
  preset : Preset
  status : String
deriving DecidableEq

/-- `QueueItem(url=url, preset=preset)` with the default status "Ожидает"
(line 205). -/
def mkQueueItem (idn : Nat) (url : String) (preset : Preset) : QItem :=
  ⟨idn, url, preset, "Ожидает"⟩

/-- `_queue_update_status` (lines 1815-1820): set the status of the item
with the given identity. -/
def setStatus (q : List QItem) (i : Nat) (st : String) : List QItem :=
  q.map (fun it => if it.idn = i then { it with status := st } else it)

/-- `_queue_remove_item` (lines 1822-1830): remove the (first) item with the
given identity from the queue; removing an absent item is a no-op. -/
def eraseById : List QItem → Nat → List QItem
  | [], _ => []
  | it :: rest, i => if it.idn = i then rest else it :: eraseById rest i

/-- State shared between the queue runner and the controller: the queue and
the cancellation flag (`self.queue` / `self.cancel_event`). -/
structure QState where
  queue : List QItem
  cancelSet : Bool
deriving DecidableEq

/-- One iteration of the `_run_queue` loop body (lines 1157-1169): mark the
item "В процессе", run the download, write its terminal status, remove it
from the queue only when the run returned "success", and absorb any setting
of the shared cancellation flag that happened during the job. -/
def processItem (env : Nat → JobEnv) (st : QState) (it : QItem) :
    QState × RunResult :=
  let q1 := setStatus st.queue it.idn "В процессе"
  let r := runSingleDownload it.preset.audioOnly (env it.idn)
  let q2 := setStatus q1 it.idn r.status
  let q3 := if r.code = "success" then eraseById q2 it.idn else q2
  (⟨q3, st.cancelSet || (env it.idn).cancelDuring⟩, r)

/-- `_run_queue` (lines 1151-1177): iterate over a snapshot of the queue,
breaking out when the cancellation flag is observed — both at the top of the
loop (line 1154) and after the item (line 1170). -/
def runQueue (env : Nat → JobEnv) : List QItem → QState → QState
  | [], st => st
  | it :: rest, st =>
    if st.cancelSet then st
    else
      let st1 := (processItem env st it).1
      if st1.cancelSet then st1 else runQueue env rest st1

/-- The full queue run: `for item in list(self.queue)` iterates over a
snapshot of the queue taken at start (line 1153). -/
def runQueueAll (env : Nat → JobEnv) (st : QState) : QState :=
  runQueue env st.queue st

/- ------------------------------------------------------------------
Queue mutation handlers (`_on_clear_queue` lines 1078-1085,
`_on_queue_delete_selected` lines 1863-1883, `_on_queue_edit_selected`
lines 1885-1894 with the dialog save at lines 2071-2098, `_on_add_to_queue`
lines 1010-1030) and `_toggle_controls` (lines 1763-1785). -/

/-- Controller-side state the mutation handlers read and write. -/
structure AppState where
  queue : List QItem
  queueRunning : Bool
deriving DecidableEq

/-- `_on_clear_queue` (lines 1078-1085): rejected with a warning while the
queue is running, otherwise clears the queue. -/
def onClearQueue (st : AppState) : AppState :=
  if st.queueRunning then st else { st with queue := [] }

/-- `_on_queue_delete_selected` (lines 1863-1883): rejected while the queue
is running; otherwise, after a confirmation, removes the selected items. -/
def onQueueDeleteSelected (st : AppState) (sel : List Nat)
    (confirmed : Bool) : AppState :=
  if st.queueRunning then st
  else if sel = [] then st
  else if confirmed then
    { st with queue := sel.foldl (fun q i => eraseById q i) st.queue }
  else st

/-- `_on_queue_edit_selected` (lines 1885-1894) together with the edit
dialog's save button (`on_ok`, lines 2071-2098): rejected while the queue is
running; otherwise, if the user saves, replaces the preset of the first
selected item. -/
def onQueueEditSelected (st : AppState) (sel : List Nat) (saved : Bool)
    (newPreset : Preset) : AppState :=
  if st.queueRunning then st
  else
    match sel with
    | [] => st
    | i :: _ =>
      if saved then
        let q := st.queue.map
          (fun it => if it.idn = i then { it with preset := newPreset }
                     else it)
        { st with queue := q }
      else st

/-- `_on_add_to_queue` (lines 1010-1030): aborts when the URL is empty or
the preset could not be collected, otherwise appends a new item.  The
handler performs NO `queue_running` check. -/
def onAddToQueue (st : AppState) (url : String) (preset : Option Preset)
    (newId : Nat) : AppState :=
  if url = "" then st
  else
    match preset with
    | none => st
    | some p => { st with queue := st.queue ++ [mkQueueItem newId url p] }

/-- The widget states set by `_toggle_controls` (lines 1763-1785) that
govern queue mutation requests. -/
structure Controls where
  addQueueDisabled : Bool
  loadTxtDisabled : Bool
  startQueueDisabled : Bool
  clearQueueDisabled : Bool
deriving DecidableEq

/-- `_toggle_controls(downloading, queue_mode)` (lines 1763-1785): the
"Add to queue" and "Load txt" buttons are disabled whenever a download or a
queue run is active; the queue start/clear buttons are disabled during a
queue-mode run. -/
def toggleControls (downloading queueMode : Bool) : Controls :=
  { addQueueDisabled := downloading,
    loadTxtDisabled := downloading,
    startQueueDisabled := downloading && queueMode,
    clearQueueDisabled := downloading && queueMode }

/- ------------------------------------------------------------------
Concrete fixtures used for closed-instance evaluations. -/

/-- A default video preset: 1080p, all-auto choices. -/
def samplePreset : Preset := ⟨1080, "Авто", "Авто", "orig", "Авто", false⟩

/-- An audio-only preset. -/
def sampleAudioPreset : Preset := ⟨1080, "Авто", "Авто", "orig", "Авто", true⟩

/-- A queued sample item. -/
def qi1 : QItem := ⟨1, "https://example.com/a", samplePreset, "Ожидает"⟩

/-- A second queued sample item. -/
def qi2 : QItem := ⟨2, "https://example.com/b", samplePreset, "Ожидает"⟩

/-- Environment: the cancellation flag is set during the job and the hook
interrupts the in-flight attempt. -/
def cancelEnv : Nat → JobEnv :=
  fun _ => ⟨DlOutcome.intr, DlOutcome.exc, RenameOutcome.skipped, true⟩

/-- Environment: the first attempt succeeds. -/
def successEnv : Nat → JobEnv :=
  fun _ => ⟨DlOutcome.ok ("/tmp/a.mkv".toList), DlOutcome.exc,
    RenameOutcome.skipped, false⟩

/-- Environment: both attempts fail with ordinary exceptions. -/
def failEnv : Nat → JobEnv :=
  fun _ => ⟨DlOutcome.exc, DlOutcome.exc, RenameOutcome.skipped, false⟩

/-- Environment: the download succeeds but the rename step raises. -/
def renameFailEnv : Nat → JobEnv :=
  fun _ => ⟨DlOutcome.ok ("/tmp/a.mkv".toList), DlOutcome.ok ("/tmp/a.mkv".toList),
    RenameOutcome.failed, false⟩

/-- Environment: the primary attempt fails, the mkv fallback succeeds. -/
def fallbackEnv : Nat → JobEnv :=
  fun _ => ⟨DlOutcome.exc, DlOutcome.ok ("/tmp/a.mkv".toList),
    RenameOutcome.skipped, false⟩

/- ==================================================================
Theorems.
================================================================== -/

/-- For container mp4 the resolver always forces H.264 video and AAC audio
(lines 917-925). -/
theorem resolve_mp4_forces (v : VCodec) (a : ACodec) :
    (resolveCodecsForContainer v a .mp4).effV = .h264
    ∧ (resolveCodecsForContainer v a .mp4).effA = .aac := by
  cases v <;> cases a <;> exact ⟨rfl, rfl⟩

/-- Claim C4.  The claim as frozen is FALSE on the code: for a preset with
container mp4 and BOTH codec preferences auto, `_resolve_codecs_for_container`
forces h264+aac but emits NO warning — the warning branches (lines 919-920,
923-924) fire only for explicit av1/vp9 resp. opus/vorbis requests, and
"auto" is not in those tuples.  This closed computation exhibits the
counterexample: effective codecs are forced, the warning is `none`. -/
theorem C4_counterexample :
    (resolveCodecsForContainer .auto .auto .mp4).effV = .h264
    ∧ (resolveCodecsForContainer .auto .auto .mp4).effA = .aac
    ∧ (resolveCodecsForContainer .auto .auto .mp4).warn = none :=
  ⟨rfl, rfl, rfl⟩

/-- Claim C4 (amended).  For every preset with container mp4 the resolver
forces video to h264 and audio to aac; the combined warning mentioning both
corrections is emitted exactly when the user explicitly chose an
mp4-incompatible video codec (av1/vp9) AND an mp4-incompatible audio codec
(opus/vorbis); when both preferences are auto (or already compatible) no
warning is emitted. -/
theorem C4_mp4_forces_h264_aac (v : VCodec) (a : ACodec) :
    (resolveCodecsForContainer v a .mp4).effV = .h264
    ∧ (resolveCodecsForContainer v a .mp4).effA = .aac
    ∧ ((resolveCodecsForContainer v a .mp4).warn
          = some (mp4VideoWarn ++ " " ++ mp4AudioWarn)
        ↔ (v = .av1 ∨ v = .vp9) ∧ (a = .opus ∨ a = .vorbis))
    ∧ ((v = .auto ∨ v = .h264) → (a = .auto ∨ a = .aac) →
        (resolveCodecsForContainer v a .mp4).warn = none) := by
  cases v <;> cases a <;> refine ⟨rfl, rfl, by decide, by decide⟩

/-- Witness for `C4_mp4_forces_h264_aac` at an explicit incompatible pair:
av1 + opus under mp4 gets the combined two-part warning. -/
theorem C4_witness :
    (VCodec.av1 = VCodec.av1 ∨ VCodec.av1 = VCodec.vp9)
    ∧ (ACodec.opus = ACodec.opus ∨ ACodec.opus = ACodec.vorbis)
    ∧ (resolveCodecsForContainer .av1 .opus .mp4).warn
        = some (mp4VideoWarn ++ " " ++ mp4AudioWarn) := by
  refine ⟨Or.inl rfl, Or.inl rfl, ?_⟩
  exact ((C4_mp4_forces_h264_aac .av1 .opus).2.2.1).mpr
    ⟨Or.inl rfl, Or.inl rfl⟩

/-- Claim C5.  For every preset with container preference mp4 — whatever
video/audio codec preferences and audio language it carries, for every
height of the quality ladder — the selector string built by
`_format_selector` from the container-corrected codecs contains no av01 and
no vp9 video filter and no opus and no vorbis audio filter. -/
theorem C5_mp4_selector_clean (v : VCodec) (a : ACodec) (h : Nat)
    (hh : h ∈ heightLadder) (alang : String) :
    containsSub (runSelector h v a .mp4 alang) "[vcodec^=av01]" = false
    ∧ containsSub (runSelector h v a .mp4 alang) "[vcodec=vp9]" = false
    ∧ containsSub (runSelector h v a .mp4 alang) "[acodec=opus]" = false
    ∧ containsSub (runSelector h v a .mp4 alang) "[acodec=vorbis]" = false := by
  obtain ⟨hv, ha⟩ := resolve_mp4_forces v a
  have hsel : runSelector h v a .mp4 alang
      = formatSelector h .h264 .aac alang := by
    simp only [runSelector, hv, ha]
  rw [hsel]
  simp only [heightLadder, List.mem_cons, List.not_mem_nil, or_false] at hh
  rcases eq_or_ne alang "ru" with rfl | hru
  · rcases hh with rfl | rfl | rfl | rfl | rfl | rfl <;> decide
  rcases eq_or_ne alang "en" with rfl | hen
  · rcases hh with rfl | rfl | rfl | rfl | rfl | rfl <;> decide
  rcases hh with rfl | rfl | rfl | rfl | rfl | rfl <;>
    (simp only [formatSelector, hru, hen, if_false]; decide)

/-- Witness for `C5_mp4_selector_clean`: an explicit preset (1080p,
explicit AV1 + Opus preferences, original audio language) under mp4. -/
theorem C5_witness :
    1080 ∈ heightLadder
    ∧ containsSub (runSelector 1080 .av1 .opus .mp4 "orig")
        "[vcodec^=av01]" = false
    ∧ containsSub (runSelector 1080 .av1 .opus .mp4 "orig")
        "[vcodec=vp9]" = false
    ∧ containsSub (runSelector 1080 .av1 .opus .mp4 "orig")
        "[acodec=opus]" = false
    ∧ containsSub (runSelector 1080 .av1 .opus .mp4 "orig")
        "[acodec=vorbis]" = false := by
  refine ⟨by decide, ?_⟩
  exact C5_mp4_selector_clean .av1 .opus 1080 (by decide) "orig"

/-- The last element survives `List.drop` when fewer than all elements are
dropped. -/
theorem getLast?_drop_of_lt (l : Str) (n : Nat) (h : n < l.length) :
    (l.drop n).getLast? = l.getLast? := by
  rw [← List.head?_reverse, ← List.head?_reverse, List.reverse_drop]
  cases hr : l.reverse with
  | nil => rw [List.reverse_eq_nil_iff] at hr; subst hr; simp at h
  | cons c cs =>
    cases hln : l.length - n with
    | zero => omega
    | succ m => simp [List.take_succ_cons]

/-- In the shrinking regime `_ellipsize` takes the middle-ellipsis branch. -/
theorem ellipsize_eq (s : Str) (m : Nat) (h2 : 2 ≤ m) (hlt : m < s.length) :
    ellipsize s m
      = s.take ((m-1) * 6 / 10) ++
        '…' :: s.drop (s.length - ((m-1) - (m-1) * 6 / 10)) := by
  have hleft : (m-1) * 6 / 10 < m - 1 := by
    rw [Nat.div_lt_iff_lt_mul (by norm_num : (0:Nat) < 10)]
    omega
  unfold ellipsize
  rw [if_neg (by omega)]
  simp only []
  rw [if_pos (by omega)]

/-- `_ellipsize` shrinks to exactly the requested length. -/
theorem ellipsize_length (s : Str) (m : Nat) (h2 : 2 ≤ m)
    (hlt : m < s.length) : (ellipsize s m).length = m := by
  have hleft : (m-1) * 6 / 10 < m - 1 := by
    rw [Nat.div_lt_iff_lt_mul (by norm_num : (0:Nat) < 10)]
    omega
  rw [ellipsize_eq s m h2 hlt]
  simp only [List.length_append, List.length_cons, List.length_take,
    List.length_drop]
  omega

/-- `_ellipsize` keeps the last character of the input. -/
theorem ellipsize_getLast? (s : Str) (m : Nat) (h2 : 2 ≤ m)
    (hlt : m < s.length) : (ellipsize s m).getLast? = s.getLast? := by
  have hleft : (m-1) * 6 / 10 < m - 1 := by
    rw [Nat.div_lt_iff_lt_mul (by norm_num : (0:Nat) < 10)]
    omega
  rw [ellipsize_eq s m h2 hlt]
  rw [List.getLast?_append_of_ne_nil _ (by simp)]
  have hd : ('…' :: s.drop (s.length - ((m-1) - (m-1) * 6 / 10)))
      = ['…'] ++ s.drop (s.length - ((m-1) - (m-1) * 6 / 10)) := rfl
  rw [hd, List.getLast?_append_of_ne_nil, getLast?_drop_of_lt]
  · omega
  · have hld : (s.drop (s.length - ((m-1) - (m-1) * 6 / 10))).length
        = s.length - (s.length - ((m-1) - (m-1) * 6 / 10)) :=
      List.length_drop _ _
    intro hcon
    rw [hcon] at hld
    simp at hld
    omega

/-- `dropWhile` is the identity when the first element is not dropped. -/
theorem dropWhile_eq_self_of_head (bad : Char → Bool) (s : Str)
    (hh : ∀ c, s.head? = some c → bad c = false) :
    s.dropWhile bad = s := by
  cases s with
  | nil => rfl
  | cons c cs => simp [List.dropWhile_cons, hh c rfl]

/-- Python `strip` is the identity when neither end has strippable
characters. -/
theorem stripEnds_eq_self (bad : Char → Bool) (s : Str)
    (hh : ∀ c, s.head? = some c → bad c = false)
    (hl : ∀ c, s.getLast? = some c → bad c = false) :
    stripEnds bad s = s := by
  unfold stripEnds
  rw [dropWhile_eq_self_of_head bad s hh]
  rw [dropWhile_eq_self_of_head bad s.reverse
    (by intro c hc; rw [List.head?_reverse] at hc; exact hl c hc)]
  exact List.reverse_reverse s

/-- Claim C6.  In the safe-rename step with tags `h264`/`aac`, height 1080
and extension `mp4`: when the composed candidate path is 260 characters and
`SAFE_MAX_PATH` is 240 (`SAFE_MAX` here), the title (assumed of a typical
shape: at least 40 characters, not ending in an underscore) is shortened by
exactly 20 characters using the middle ellipsis, stays at least
`MIN_BASE_LEN = 20` characters, and the `h264_aac_1080_` tag/height prefix
and the `.mp4` extension are rebuilt unshortened. -/
theorem C6_safe_rename_shrink (folder base : Str)
    (hlen : 40 ≤ base.length)
    (hlast : base.getLast? ≠ some '_')
    (hcand : (renameCandidate folder ("h264".toList) ("aac".toList)
        (some 1080) ("mp4".toList) base).length = 260) :
    autoRenameName folder ("h264".toList) ("aac".toList) (some 1080)
        ("mp4".toList) base
      = ("h264_aac_1080_".toList) ++ ellipsize base (base.length - 20)
          ++ '.' :: ("mp4".toList)
    ∧ (ellipsize base (base.length - 20)).length = base.length - 20
    ∧ MIN_BASE_LEN ≤ base.length - 20 := by
  have h2 : 2 ≤ base.length - 20 := by omega
  have hlt : base.length - 20 < base.length := by omega
  have hellen := ellipsize_length base (base.length - 20) h2 hlt
  have helast := ellipsize_getLast? base (base.length - 20) h2 hlt
  unfold renameCandidate at hcand
  simp only [autoRenameName]
  rw [hcand]
  rw [if_pos (by norm_num [SAFE_MAX])]
  have hpfx : stripU (collapseUU (("h264".toList) ++ '_' :: ("aac".toList)
      ++ '_' :: heightPart (some 1080) ++ ['_'])) = ("h264_aac_1080".toList) := by
    decide
  rw [hpfx]
  rw [if_pos (by decide : ("h264_aac_1080".toList : Str) ≠ [])]
  have hmax : max MIN_BASE_LEN (base.length - (260 - SAFE_MAX))
      = base.length - 20 := by
    simp only [MIN_BASE_LEN, SAFE_MAX]
    omega
  rw [hmax]
  have hp2 : ("h264_aac_1080".toList : Str) ++ ['_'] = "h264_aac_1080_".toList := by
    decide
  rw [hp2]
  have hb2ne : ellipsize base (base.length - 20) ≠ [] := by
    intro hcon
    rw [hcon] at hellen
    simp at hellen
    omega
  have hstrip : stripU (("h264_aac_1080_".toList : Str)
      ++ ellipsize base (base.length - 20))
      = ("h264_aac_1080_".toList : Str) ++ ellipsize base (base.length - 20) := by
    apply stripEnds_eq_self
    · intro c hc
      have h0 : (("h264_aac_1080_".toList : Str)
          ++ ellipsize base (base.length - 20)).head? = some 'h' := rfl
      rw [h0] at hc
      injection hc with hc2
      subst hc2
      decide
    · intro c hc
      rw [List.getLast?_append_of_ne_nil _ hb2ne, helast] at hc
      have hcne : c ≠ '_' := by
        intro hcc
        subst hcc
        exact hlast hc
      simp [hcne]
  rw [hstrip]
  refine ⟨rfl, hellen, by simp only [MIN_BASE_LEN]; omega⟩

set_option maxRecDepth 100000 in
/-- Witness for `C6_safe_rename_shrink`: a 238-character title in folder
`out` gives a 260-character candidate, which is shrunk to a 218-character
title. -/
theorem C6_witness :
    40 ≤ (List.replicate 238 'a').length
    ∧ (List.replicate 238 'a').getLast? ≠ some '_'
    ∧ (renameCandidate ("out".toList) ("h264".toList) ("aac".toList)
        (some 1080) ("mp4".toList) (List.replicate 238 'a')).length = 260
    ∧ (autoRenameName ("out".toList) ("h264".toList) ("aac".toList)
          (some 1080) ("mp4".toList) (List.replicate 238 'a')
        = ("h264_aac_1080_".toList)
            ++ ellipsize (List.replicate 238 'a')
                ((List.replicate 238 'a').length - 20)
            ++ '.' :: ("mp4".toList)
      ∧ (ellipsize (List.replicate 238 'a')
            ((List.replicate 238 'a').length - 20)).length
          = (List.replicate 238 'a').length - 20
      ∧ MIN_BASE_LEN ≤ (List.replicate 238 'a').length - 20) := by
  refine ⟨by decide, by decide, by decide, ?_⟩
  exact C6_safe_rename_shrink ("out".toList) (List.replicate 238 'a')
    (by decide) (by decide) (by decide)

/-- Writing a status twice to the same item keeps only the second write. -/
theorem setStatus_setStatus (q : List QItem) (i : Nat) (a b : String) :
    setStatus (setStatus q i a) i b = setStatus q i b := by
  induction q with
  | nil => rfl
  | cons x xs ih =>
    simp only [setStatus, List.map_cons] at ih ⊢
    by_cases hx : x.idn = i
    · simp [hx, ih]
    · simp [hx, ih]

/-- `_queue_update_status` does not change the queue length. -/
theorem length_setStatus (q : List QItem) (i : Nat) (s : String) :
    (setStatus q i s).length = q.length := by
  simp [setStatus]

/-- Items with a different identity are untouched by a status write. -/
theorem mem_setStatus_of_ne (q : List QItem) (i : Nat) (s : String)
    (j : QItem) (hj : j ∈ q) (hne : j.idn ≠ i) : j ∈ setStatus q i s := by
  unfold setStatus
  exact List.mem_map.mpr ⟨j, hj, by simp [hne]⟩

/-- A status write leaves the item present, with the written status. -/
theorem exists_mem_setStatus (q : List QItem) (i : Nat) (s : String)
    (h : i ∈ q.map (fun j => j.idn)) :
    ∃ j, j ∈ setStatus q i s ∧ j.idn = i ∧ j.status = s := by
  rcases List.mem_map.mp h with ⟨j0, hj0, hid⟩
  refine ⟨{j0 with status := s}, ?_, by simpa using hid, rfl⟩
  exact List.mem_map.mpr ⟨j0, hj0, by simp [hid]⟩

/-- A status write does not change the identities in the queue. -/
theorem map_idn_setStatus (q : List QItem) (i : Nat) (s : String) :
    (setStatus q i s).map (fun j => j.idn) = q.map (fun j => j.idn) := by
  induction q with
  | nil => rfl
  | cons x xs ih =>
    simp only [setStatus, List.map_cons] at ih ⊢
    by_cases hx : x.idn = i
    · simp [hx, ih]
    · simp [hx, ih]

/-- `_queue_remove_item` removes exactly one item when the identity is
present. -/
theorem length_eraseById (q : List QItem) (i : Nat)
    (h : i ∈ q.map (fun j => j.idn)) :
    (eraseById q i).length + 1 = q.length := by
  induction q with
  | nil => simp at h
  | cons x xs ih =>
    simp only [List.map_cons, List.mem_cons] at h
    by_cases hx : x.idn = i
    · simp [eraseById, hx]
    · have hxs : i ∈ xs.map (fun j => j.idn) := by
        rcases h with h | h
        · exact absurd h.symm hx
        · exact h
      simp [eraseById, hx, ih hxs]

/-- A download interrupted by the cancellation signal ends as "Отменено"
with no fallback, in both the audio-only and the video branch. -/
theorem runSingleDownload_intr (audioOnly : Bool) (e : JobEnv)
    (hobs : e.attempt1 = DlOutcome.intr) :
    runSingleDownload audioOnly e
      = { code := "cancel", status := "Отменено", attempts := 1,
          fallbackAttempts := 0, itemResultPath := none,
          lastOutputPath := none, renameFailLogged := false } := by
  cases audioOnly <;> simp [runSingleDownload, hobs]

/-- Claim C1.  If the shared cancellation flag is set while a job's download
is in flight — so the progress hook observes it and raises
`KeyboardInterrupt` (the final conjunct: a hook invocation with the flag set
always aborts) — then: the job's status becomes "Отменено" (Canceled), no
mkv fallback is attempted for it, and the queue run stops: the whole run
state is exactly the input queue with only that job's status changed, so the
remaining queued jobs are neither processed nor removed. -/
theorem C1_cancellation_halts_queue
    (env : Nat → JobEnv) (st : QState) (it : QItem) (rest : List QItem)
    (hflag : st.cancelSet = false)
    (hset : (env it.idn).cancelDuring = true)
    (hobs : (env it.idn).attempt1 = DlOutcome.intr) :
    runQueue env (it :: rest) st
      = ⟨setStatus st.queue it.idn "Отменено", true⟩
    ∧ (runSingleDownload it.preset.audioOnly (env it.idn)).status = "Отменено"
    ∧ (runSingleDownload it.preset.audioOnly (env it.idn)).fallbackAttempts = 0
    ∧ (runQueue env (it :: rest) st).queue.length = st.queue.length
    ∧ (∀ j, j ∈ st.queue → j.idn ≠ it.idn →
        j ∈ (runQueue env (it :: rest) st).queue)
    ∧ (∀ ts ev, progressHook true ts ev = Except.error ()) := by
  have hrun := runSingleDownload_intr it.preset.audioOnly (env it.idn) hobs
  have hstep : runQueue env (it :: rest) st
      = ⟨setStatus st.queue it.idn "Отменено", true⟩ := by
    simp only [runQueue, processItem, hrun, hflag, hset, Bool.false_or,
      Bool.false_eq_true, if_false]
    rw [if_neg (by decide : ¬("cancel" = "success"))]
    simp [setStatus_setStatus]
  refine ⟨hstep, by rw [hrun], by rw [hrun], ?_, ?_, ?_⟩
  · rw [hstep]
    exact length_setStatus st.queue it.idn "Отменено"
  · intro j hj hne
    rw [hstep]
    exact mem_setStatus_of_ne st.queue it.idn "Отменено" j hj hne
  · intro ts ev
    rfl

/-- Witness for `C1_cancellation_halts_queue`: a two-item queue in which the
first job is interrupted by the cancellation flag; the run halts with the
first item marked "Отменено" and the second item untouched. -/
theorem C1_witness :
    (⟨[qi1, qi2], false⟩ : QState).cancelSet = false
    ∧ (cancelEnv qi1.idn).cancelDuring = true
    ∧ (cancelEnv qi1.idn).attempt1 = DlOutcome.intr
    ∧ runQueue cancelEnv [qi1, qi2] ⟨[qi1, qi2], false⟩
        = ⟨setStatus [qi1, qi2] qi1.idn "Отменено", true⟩ := by
  refine ⟨rfl, rfl, rfl, ?_⟩
  exact (C1_cancellation_halts_queue cancelEnv ⟨[qi1, qi2], false⟩ qi1 [qi2]
    rfl rfl rfl).1

/-- Claim C3.  During a queue run: after a job that returns "success" the
queue is exactly one element shorter (the job was removed); after a job that
fails or is canceled the queue length is unchanged and the job is still in
the queue carrying its terminal status. -/
theorem C3_queue_length_invariant (env : Nat → JobEnv) (st : QState)
    (it : QItem) (hmem : it.idn ∈ st.queue.map (fun j => j.idn)) :
    ((processItem env st it).2.code = "success" →
        (processItem env st it).1.queue.length + 1 = st.queue.length)
    ∧ ((processItem env st it).2.code ≠ "success" →
        (processItem env st it).1.queue.length = st.queue.length
        ∧ ∃ j, j ∈ (processItem env st it).1.queue ∧ j.idn = it.idn
            ∧ j.status = (processItem env st it).2.status) := by
  constructor
  · intro hs
    simp only [processItem] at hs ⊢
    rw [if_pos hs, setStatus_setStatus]
    rw [length_eraseById _ _ (by rw [map_idn_setStatus]; exact hmem)]
    exact length_setStatus st.queue it.idn _
  · intro hs
    simp only [processItem] at hs ⊢
    rw [if_neg hs, setStatus_setStatus]
    refine ⟨length_setStatus st.queue it.idn _, ?_⟩
    exact exists_mem_setStatus st.queue it.idn _ hmem

/-- Witness for `C3_queue_length_invariant` at a successful job in a
two-item queue: the step removes exactly that job. -/
theorem C3_witness :
    qi1.idn ∈ ([qi1, qi2].map (fun j => j.idn))
    ∧ (((processItem successEnv ⟨[qi1, qi2], false⟩ qi1).2.code = "success" →
        (processItem successEnv ⟨[qi1, qi2], false⟩ qi1).1.queue.length + 1
          = 2)
      ∧ ((processItem successEnv ⟨[qi1, qi2], false⟩ qi1).2.code ≠ "success" →
        (processItem successEnv ⟨[qi1, qi2], false⟩ qi1).1.queue.length = 2
        ∧ ∃ j, j ∈ (processItem successEnv ⟨[qi1, qi2], false⟩ qi1).1.queue
            ∧ j.idn = qi1.idn
            ∧ j.status = (processItem successEnv ⟨[qi1, qi2], false⟩ qi1).2.status)) := by
  refine ⟨by decide, ?_⟩
  exact C3_queue_length_invariant successEnv ⟨[qi1, qi2], false⟩ qi1 (by decide)

/-- Claim C2 counterexample.  The claim quantifies over EVERY job, but a job
with the audio-only flag never reaches the fallback: here is an audio-only
job whose primary attempt raises a non-cancellation error (flag clear), and
zero mkv fallback attempts are made — the job just fails. -/
theorem C2_counterexample :
    sampleAudioPreset.audioOnly = true
    ∧ (failEnv 0).attempt1 = DlOutcome.exc
    ∧ (failEnv 0).cancelDuring = false
    ∧ (runSingleDownload sampleAudioPreset.audioOnly (failEnv 0)).fallbackAttempts = 0
    ∧ (runSingleDownload sampleAudioPreset.audioOnly (failEnv 0)).attempts = 1
    ∧ (runSingleDownload sampleAudioPreset.audioOnly (failEnv 0)).status = "Ошибка" :=
  ⟨rfl, rfl, rfl, rfl, rfl, rfl⟩

/-- Claim C2 (amended).  For every job WITHOUT the audio-only flag whose
primary attempt throws a non-cancellation error (the cancellation flag is
clear at the check of line 1558), the mkv fallback is attempted exactly once
— there is no second retry, the run makes exactly two attempts; and if that
fallback completes successfully the job's final status is "Готово (mkv)"
(SucceededFallback) and the run returns "success" (so the queue counts it
as a success). -/
theorem C2_fallback_exactly_once (e : JobEnv)
    (h1 : e.attempt1 = DlOutcome.exc) (h2 : e.cancelDuring = false) :
    (runSingleDownload false e).fallbackAttempts = 1
    ∧ (runSingleDownload false e).attempts = 2
    ∧ (∀ p, e.attempt2 = DlOutcome.ok p →
        (runSingleDownload false e).code = "success"
        ∧ (runSingleDownload false e).status = "Готово (mkv)") := by
  cases ha : e.attempt2 <;>
    simp [runSingleDownload, h1, h2, ha, successResult]

/-- Witness for `C2_fallback_exactly_once`: a video job whose primary
attempt fails and whose mkv fallback succeeds. -/
theorem C2_witness :
    (fallbackEnv 0).attempt1 = DlOutcome.exc
    ∧ (fallbackEnv 0).cancelDuring = false
    ∧ ((runSingleDownload false (fallbackEnv 0)).fallbackAttempts = 1
      ∧ (runSingleDownload false (fallbackEnv 0)).attempts = 2
      ∧ (∀ p, (fallbackEnv 0).attempt2 = DlOutcome.ok p →
          (runSingleDownload false (fallbackEnv 0)).code = "success"
          ∧ (runSingleDownload false (fallbackEnv 0)).status = "Готово (mkv)")) := by
  refine ⟨rfl, rfl, ?_⟩
  exact C2_fallback_exactly_once (fallbackEnv 0) rfl rfl

/-- Claim C10.  For every job with the audio-only flag: exactly one download
attempt is made and the mkv fallback is never engaged; a non-cancellation
failure immediately gives status "Ошибка" (Failed) and return "error"; a
cancellation (`KeyboardInterrupt` from the hook) gives status "Отменено"
(Canceled) and return "cancel". -/
theorem C10_audio_only_single_attempt (e : JobEnv) :
    (runSingleDownload true e).attempts = 1
    ∧ (runSingleDownload true e).fallbackAttempts = 0
    ∧ (e.attempt1 = DlOutcome.exc →
        (runSingleDownload true e).code = "error"
        ∧ (runSingleDownload true e).status = "Ошибка")
    ∧ (e.attempt1 = DlOutcome.intr →
        (runSingleDownload true e).code = "cancel"
        ∧ (runSingleDownload true e).status = "Отменено") := by
  cases ha : e.attempt1 <;> simp [runSingleDownload, ha, successResult]

/-- Witness for `C10_audio_only_single_attempt` at the failing audio job. -/
theorem C10_witness :
    (runSingleDownload true (failEnv 0)).attempts = 1
    ∧ (runSingleDownload true (failEnv 0)).fallbackAttempts = 0
    ∧ ((failEnv 0).attempt1 = DlOutcome.exc →
        (runSingleDownload true (failEnv 0)).code = "error"
        ∧ (runSingleDownload true (failEnv 0)).status = "Ошибка")
    ∧ ((failEnv 0).attempt1 = DlOutcome.intr →
        (runSingleDownload true (failEnv 0)).code = "cancel"
        ∧ (runSingleDownload true (failEnv 0)).status = "Отменено") :=
  C10_audio_only_single_attempt (failEnv 0)

/-- Claim C8.  If the post-success rename step fails (its body raises and
the exception is caught at lines 1720-1721, only logging), the job still
terminates as a success: the return value is "success", the status is the
success status of the branch that downloaded ("Готово" for the primary /
audio attempt, "Готово (mkv)" for the fallback), the rename failure is
logged, and the original engine output path is kept both as
`queue_item.result_path` and as `last_output_path`. -/
theorem C8_rename_failure_never_fails_job (e : JobEnv) (p : Str) (ao : Bool)
    (hren : e.rename = RenameOutcome.failed) :
    (e.attempt1 = DlOutcome.ok p →
        (runSingleDownload ao e).code = "success"
        ∧ (runSingleDownload ao e).status = "Готово"
        ∧ (runSingleDownload ao e).itemResultPath = some p
        ∧ (runSingleDownload ao e).lastOutputPath = some p
        ∧ (runSingleDownload ao e).renameFailLogged = true)
    ∧ (e.attempt1 = DlOutcome.exc → e.cancelDuring = false →
        e.attempt2 = DlOutcome.ok p →
        (runSingleDownload false e).code = "success"
        ∧ (runSingleDownload false e).status = "Готово (mkv)"
        ∧ (runSingleDownload false e).itemResultPath = some p
        ∧ (runSingleDownload false e).lastOutputPath = some p
        ∧ (runSingleDownload false e).renameFailLogged = true) := by
  constructor
  · intro h1
    cases ao <;> simp [runSingleDownload, h1, successResult, renameStep, hren]
  · intro h1 h2 h3
    simp [runSingleDownload, h1, h2, h3, successResult, renameStep, hren]

/-- Witness for `C8_rename_failure_never_fails_job`: a successful video
download whose rename raises still ends as "Готово" with the original
path. -/
theorem C8_witness :
    (renameFailEnv 0).rename = RenameOutcome.failed
    ∧ ((renameFailEnv 0).attempt1 = DlOutcome.ok ("/tmp/a.mkv".toList) →
        (runSingleDownload false (renameFailEnv 0)).code = "success"
        ∧ (runSingleDownload false (renameFailEnv 0)).status = "Готово"
        ∧ (runSingleDownload false (renameFailEnv 0)).itemResultPath
            = some ("/tmp/a.mkv".toList)
        ∧ (runSingleDownload false (renameFailEnv 0)).lastOutputPath
            = some ("/tmp/a.mkv".toList)
        ∧ (runSingleDownload false (renameFailEnv 0)).renameFailLogged = true) := by
  refine ⟨rfl, ?_⟩
  exact (C8_rename_failure_never_fails_job (renameFailEnv 0)
    ("/tmp/a.mkv".toList) false rfl).1

/-- Claim C9 counterexample.  The claim requires an intermediate emission to
be suppressed unless at least 0.5 percentage points of progress elapsed.
The code (line 822) suppresses only when BOTH thresholds are unmet: from
state (lastTs = 0, lastPercent = 0), a hook call at time 0.6 with progress
0.1 — only 0.1 percentage points of progress — is emitted, because the time
threshold alone satisfies the code's test. -/
theorem C9_counterexample :
    (appendRawThrottled ⟨0, 0⟩ (3/5) (1/10)).1 = true
    ∧ ((1 : Rat)/10 - 0 < 1/2) := by
  constructor
  · have hc : ¬((3/5 : Rat) - (0 : Rat) < 1/2 ∧ (1/10 : Rat) - (0 : Rat) < 1/2) := by
      intro hcon
      rcases hcon with ⟨h1, _⟩
      norm_num at h1
    unfold appendRawThrottled
    rw [if_neg hc]
  · norm_num

/-- Claim C9 (amended).  An intermediate progress line is suppressed exactly
when BOTH less than 0.5 s passed since the last emission AND less than 0.5
percentage points of progress accumulated — either threshold alone triggers
an emission (so same-percent chatter is limited to about two lines per
second, but fast progress can emit more often).  The first progress event
after the per-download reset (lastPercent = -1, lines 1302-1303) is never
suppressed, and the 100%-completion ("finished") line bypasses the throttle
entirely (line 1755); intermediate lines go through the throttle
(line 1750). -/
theorem C9_throttle_amended (st : ThrottleState) (now percent : Rat) :
    ((appendRawThrottled st now percent).1 = true
        ↔ (1/2 ≤ now - st.lastTs ∨ 1/2 ≤ percent - st.lastPercent))
    ∧ (0 ≤ percent → st.lastPercent = -1 →
        (appendRawThrottled st now percent).1 = true)
    ∧ (∀ ts, progressHook false ts HookEvent.finished = Except.ok (true, ts))
    ∧ (∀ ts now2 pct, progressHook false ts (HookEvent.downloading now2 pct)
        = Except.ok (appendRawThrottled ts now2 pct)) := by
  have hiff : (appendRawThrottled st now percent).1 = true
      ↔ (1/2 ≤ now - st.lastTs ∨ 1/2 ≤ percent - st.lastPercent) := by
    unfold appendRawThrottled
    by_cases hcond : (now - st.lastTs < 1/2 ∧ percent - st.lastPercent < 1/2)
    · rw [if_pos hcond]
      constructor
      · intro h
        exact absurd h (by simp)
      · intro hd
        exfalso
        rcases hd with hd | hd
        · exact absurd hd (not_le.mpr hcond.1)
        · exact absurd hd (not_le.mpr hcond.2)
    · rw [if_neg hcond]
      constructor
      · intro _
        rcases not_and_or.mp hcond with h | h
        · exact Or.inl (not_lt.mp h)
        · exact Or.inr (not_lt.mp h)
      · intro _
        rfl
  refine ⟨hiff, ?_, fun ts => rfl, fun ts now2 pct => rfl⟩
  intro hp hlp
  apply hiff.mpr
  right
  rw [hlp]
  linarith

/-- Witness for `C9_throttle_amended`: the very first progress event after
the reset state (time 100, progress 0) is emitted. -/
theorem C9_witness :
    ((appendRawThrottled throttleReset 100 0).1 = true
        ↔ (1/2 ≤ (100 : Rat) - throttleReset.lastTs
            ∨ 1/2 ≤ (0 : Rat) - throttleReset.lastPercent))
    ∧ ((0 : Rat) ≤ 0 → throttleReset.lastPercent = -1 →
        (appendRawThrottled throttleReset 100 0).1 = true)
    ∧ (∀ ts, progressHook false ts HookEvent.finished = Except.ok (true, ts))
    ∧ (∀ ts now2 pct, progressHook false ts (HookEvent.downloading now2 pct)
        = Except.ok (appendRawThrottled ts now2 pct)) :=
  C9_throttle_amended throttleReset 100 0

/-- Claim C7 counterexample.  The claim says EVERY queue-composition
mutation requested during a run is rejected, but `_on_add_to_queue`
(lines 1010-1030) performs no `queue_running` check: invoked on a running
state with a valid URL and preset it appends to the queue. -/
theorem C7_counterexample :
    (⟨[qi1], true⟩ : AppState).queueRunning = true
    ∧ (onAddToQueue ⟨[qi1], true⟩ "https://example.com/c"
        (some samplePreset) 3).queue
        = [qi1, mkQueueItem 3 "https://example.com/c" samplePreset]
    ∧ (onAddToQueue ⟨[qi1], true⟩ "https://example.com/c"
        (some samplePreset) 3).queue.length = 2 :=
  ⟨rfl, rfl, rfl⟩

/-- Claim C7 (amended).  While a queue run is in progress the delete, edit
and clear handlers reject the request (with a warning dialog) and leave the
state unchanged; the add-to-queue handler itself performs no such check — it
appends the item even while running — and add requests are prevented only at
the UI level: `_toggle_controls` disables the add and load-from-txt buttons
for the whole duration of a run. -/
theorem C7_mutation_guards (st : AppState) (hrun : st.queueRunning = true) :
    onClearQueue st = st
    ∧ (∀ sel c, onQueueDeleteSelected st sel c = st)
    ∧ (∀ sel sv p, onQueueEditSelected st sel sv p = st)
    ∧ (∀ qm, (toggleControls true qm).addQueueDisabled = true
        ∧ (toggleControls true qm).loadTxtDisabled = true)
    ∧ (∀ url p i, url ≠ "" →
        onAddToQueue st url (some p) i
          = { st with queue := st.queue ++ [mkQueueItem i url p] }) := by
  refine ⟨?_, ?_, ?_, fun qm => ⟨rfl, rfl⟩, ?_⟩
  · simp [onClearQueue, hrun]
  · intro sel c
    simp [onQueueDeleteSelected, hrun]
  · intro sel sv p
    simp [onQueueEditSelected, hrun]
  · intro url p i hu
    simp [onAddToQueue, hu]

/-- Witness for `C7_mutation_guards` on a running single-item state. -/
theorem C7_witness :
    (⟨[qi1], true⟩ : AppState).queueRunning = true
    ∧ (onClearQueue ⟨[qi1], true⟩ = (⟨[qi1], true⟩ : AppState)
      ∧ (∀ sel c, onQueueDeleteSelected ⟨[qi1], true⟩ sel c
          = (⟨[qi1], true⟩ : AppState))
      ∧ (∀ sel sv p, onQueueEditSelected ⟨[qi1], true⟩ sel sv p
          = (⟨[qi1], true⟩ : AppState))
      ∧ (∀ qm, (toggleControls true qm).addQueueDisabled = true
          ∧ (toggleControls true qm).loadTxtDisabled = true)
      ∧ (∀ url p i, url ≠ "" →
          onAddToQueue ⟨[qi1], true⟩ url (some p) i
            = (⟨[qi1] ++ [mkQueueItem i url p], true⟩ : AppState))) :=
  ⟨rfl, C7_mutation_guards ⟨[qi1], true⟩ rfl⟩
